import Mathlib

/-!
Verification development for the SongLibrary service.

We give a shallow embedding of the Go code: Go strings are lists of
characters, `database/sql` nullable strings are a value paired with a
validity flag, and the Postgres-backed storage is modelled as an
in-memory list of rows reflecting the SQL statements' semantics.
The verse pagination of `songService.GetSongText`, the enrichment and
validation logic of `songService.AddSong`, the storage-level not-found
signalling, the HTTP status mapping of `AddSongHandler`, and the mock
mode of `MusicAPIClient` are embedded below, and the spec's claims about
them are settled as theorems.
-/

set_option maxHeartbeats 1000000

set_option maxRecDepth 4000

/-- Go strings, modelled as lists of characters. -/
abbrev GoStr := List Char

/-- The blank-line verse separator used throughout the service
(two consecutive newline characters). -/
def sepNN : GoStr := ['\n', '\n']

/-- Go `strings.Split(s, "\n\n")`: split around each leftmost,
non-overlapping occurrence of the two-newline separator.
Matches Go's semantics for a fixed non-empty separator. -/
def splitSep : GoStr → List GoStr
  | [] => [[]]
  | [a] => [[a]]
  | a :: b :: rest =>
    if a = '\n' ∧ b = '\n' then
      [] :: splitSep rest
    else
      match splitSep (b :: rest) with
      | [] => [[a]]
      | h :: t => (a :: h) :: t

/-- Go `strings.Join(vs, "\n\n")`: interleave the separator between
the pieces. -/
def joinSep : List GoStr → GoStr
  | [] => []
  | [v] => v
  | v :: vs => v ++ sepNN ++ joinSep vs

theorem splitSep_nil : splitSep [] = [[]] := rfl

theorem splitSep_single (a : Char) : splitSep [a] = [[a]] := rfl

theorem splitSep_cons₂ (a b : Char) (rest : GoStr) :
    splitSep (a :: b :: rest) =
      if a = '\n' ∧ b = '\n' then
        [] :: splitSep rest
      else
        match splitSep (b :: rest) with
        | [] => [[a]]
        | h :: t => (a :: h) :: t := rfl

theorem splitSep_ne_nil (l : GoStr) : splitSep l ≠ [] := by
  match l with
  | [] => simp [splitSep]
  | [a] => simp [splitSep]
  | a :: b :: rest =>
    rw [splitSep_cons₂]
    split
    · simp
    · cases hs : splitSep (b :: rest) <;> simp

theorem joinSep_nil : joinSep [] = [] := rfl

theorem joinSep_single (v : GoStr) : joinSep [v] = v := rfl

theorem joinSep_cons₂ (v w : GoStr) (vs : List GoStr) :
    joinSep (v :: w :: vs) = v ++ sepNN ++ joinSep (w :: vs) := rfl

theorem joinSep_cons_head (a : Char) (h : GoStr) (t : List GoStr) :
    joinSep ((a :: h) :: t) = a :: joinSep (h :: t) := by
  cases t with
  | nil => rfl
  | cons w t' => simp [joinSep_cons₂, List.cons_append]

/-- Splitting on the separator and rejoining with the same separator is
the identity: Go's `strings.Join(strings.Split(s, sep), sep) == s`. -/
theorem joinSep_splitSep : ∀ l : GoStr, joinSep (splitSep l) = l
  | [] => rfl
  | [a] => rfl
  | a :: b :: rest => by
    rw [splitSep_cons₂]
    by_cases hab : a = '\n' ∧ b = '\n'
    · rw [if_pos hab]
      obtain ⟨ha, hb⟩ := hab
      subst ha
      subst hb
      have ih := joinSep_splitSep rest
      obtain ⟨h1, t1, hsp⟩ := List.exists_cons_of_ne_nil (splitSep_ne_nil rest)
      rw [hsp]
      rw [joinSep_cons₂]
      rw [← hsp, ih]
      rfl
    · rw [if_neg hab]
      have ih := joinSep_splitSep (b :: rest)
      obtain ⟨h1, t1, hsp⟩ := List.exists_cons_of_ne_nil (splitSep_ne_nil (b :: rest))
      rw [hsp]
      simp only []
      rw [joinSep_cons_head, ← hsp, ih]

/-- Each piece produced by `splitSep` is a sublist of the input;
in particular splitting produces at least one piece (see
`splitSep_ne_nil`). Go slice expression `l[s:e]` on a list, for
`0 ≤ s ≤ e ≤ len l` (the only uses that occur in the service). -/
def goSlice {α : Type} (l : List α) (s e : Int) : List α :=
  (l.drop s.toNat).take (e - s).toNat

/-- `sql.NullString`: a string value together with a validity flag. -/
structure NullString where
  string : GoStr
  valid : Bool
deriving DecidableEq, Repr

/-- `models.Song`: a catalog row. `time.Time` instants are modelled as
abstract integer timestamps. -/
structure Song where
  id : Int
  groupName : GoStr
  songName : GoStr
  releaseDate : NullString
  text : NullString
  link : NullString
  createdAt : Int
  updatedAt : Int
deriving DecidableEq, Repr

/-- `models.Pagination`. -/
structure Pagination where
  page : Int
  pageSize : Int
deriving DecidableEq, Repr

/-- `models.NewPagination`: non-positive inputs fall back to the
defaults page 1 and pageSize 10. -/
def NewPagination (page pageSize : Int) : Pagination :=
  { page := if page ≤ 0 then 1 else page
    pageSize := if pageSize ≤ 0 then 10 else pageSize }

/-- `Pagination.GetOffset`. -/
def Pagination.GetOffset (p : Pagination) : Int := (p.page - 1) * p.pageSize

/-- `Pagination.GetLimit`. -/
def Pagination.GetLimit (p : Pagination) : Int := p.pageSize

/-- The pure verse-pagination core of `songService.GetSongText`,
applied to the song fetched from storage: if the text is present,
split it into verses on the blank-line separator, take the window
`[offset, offset+limit)` clamped to the verse count, and rejoin; a
start index strictly past the verse count clears the text to the
invalid null string. -/
def GetSongTextPure (song : Song) (p : Pagination) : Song :=
  if song.text.valid then
    let verses := splitSep song.text.string
    let startIndex := p.GetOffset
    let endIndex := startIndex + p.GetLimit
    if startIndex > (verses.length : Int) then
      { song with text := ⟨[], false⟩ }
    else
      let endIndex2 := if endIndex > (verses.length : Int) then (verses.length : Int) else endIndex
      { song with text := ⟨joinSep (goSlice verses startIndex endIndex2), true⟩ }
  else
    song

/-- Storage-level errors: the distinguished `storage.ErrSongNotFound`
versus a generic query failure. -/
inductive StorageErr where
  | songNotFound
  | queryFailed
deriving DecidableEq, Repr

/-- Row lookup performed by the SQL `WHERE id = $1` clauses. -/
def findSong (store : List Song) (id : Int) : Option Song :=
  store.find? (fun s => decide (s.id = id))

/-- `PgStorage.GetByID`: `SELECT ... WHERE id = $1`; no row means
`pgx.ErrNoRows`, surfaced as `ErrSongNotFound`. -/
def pgGetByID (store : List Song) (id : Int) : Except StorageErr Song :=
  match findSong store id with
  | none => .error .songNotFound
  | some s => .ok s

/-- `PgStorage.Update`: `UPDATE ... SET ..., updated_at = CURRENT_TIMESTAMP
WHERE id = $6 RETURNING ...`; a missing row means `pgx.ErrNoRows`,
surfaced as `ErrSongNotFound`. `created_at` is not in the SET list and
is therefore preserved. -/
def pgUpdate (store : List Song) (song : Song) (now : Int) :
    Except StorageErr (Song × List Song) :=
  match findSong store song.id with
  | none => .error .songNotFound
  | some old =>
    let updated := { song with createdAt := old.createdAt, updatedAt := now }
    .ok (updated, store.map (fun s => if s.id = song.id then updated else s))

/-- `PgStorage.Delete`: `DELETE FROM songs WHERE id = $1`; zero affected
rows is signalled as `ErrSongNotFound`. -/
def pgDelete (store : List Song) (id : Int) : Except StorageErr (List Song) :=
  let remaining := store.filter (fun s => decide (s.id ≠ id))
  if remaining.length = store.length then
    .error .songNotFound
  else
    .ok remaining

/-- The database state seen by `PgStorage.Create`: the rows, the next
identity value, and the current timestamp. -/
structure PgState where
  songs : List Song
  nextId : Int
  now : Int
deriving DecidableEq, Repr

/-- `PgStorage.Create`: `INSERT ... RETURNING ...` assigns the identity
id and the `created_at`/`updated_at` timestamps and returns the row. -/
def pgCreate (st : PgState) (song : Song) : Song × PgState :=
  let added := { song with id := st.nextId, createdAt := st.now, updatedAt := st.now }
  (added, { st with songs := st.songs ++ [added], nextId := st.nextId + 1 })

/-- `models.SongDetailFromAPI`: the three enrichment fields returned by
the external metadata client. -/
structure SongDetailFromAPI where
  releaseDate : GoStr
  text : GoStr
  link : GoStr
deriving DecidableEq, Repr

/-- `models.AddSongRequest`. -/
structure AddSongRequest where
  groupName : GoStr
  songName : GoStr
deriving DecidableEq, Repr

/-- The distinguishable failure kinds of `songService.AddSong`:
the wrap of `ErrExternalAPI`, the two length-validation failures, and a
propagated storage failure. -/
inductive AddSongErr where
  | externalAPI
  | textTooLong
  | releaseDateTooLong
  | storageFailed
deriving DecidableEq, Repr

/-- A calendar date, the relevant content of a parsed `time.Time`. -/
structure Date where
  year : Nat
  month : Nat
  day : Nat
deriving DecidableEq, Repr

/-- Two-digit zero-padded decimal rendering, as in Go layout `01`/`02`. -/
def pad2 (n : Nat) : GoStr :=
  [Nat.digitChar (n / 10 % 10), Nat.digitChar (n % 10)]

/-- Four-digit zero-padded decimal rendering, as in Go layout `2006`. -/
def pad4 (n : Nat) : GoStr :=
  [Nat.digitChar (n / 1000 % 10), Nat.digitChar (n / 100 % 10),
   Nat.digitChar (n / 10 % 10), Nat.digitChar (n % 10)]

/-- `parsedTime.Format("2006-01-02")`: the normalized `YYYY-MM-DD`
rendering of a date. -/
def formatYYYYMMDD (d : Date) : GoStr :=
  pad4 d.year ++ ['-'] ++ pad2 d.month ++ ['-'] ++ pad2 d.day

/-- `maxTextLength` from `songService.AddSong`. -/
def maxTextLength : Nat := 65535

/-- `maxReleaseDateLength` from `songService.AddSong`. -/
def maxReleaseDateLength : Nat := 255

deriving instance DecidableEq for Except

/-- The full outcome of one `AddSong` call: the returned value or error,
the resulting storage state, and whether `storage.Create` was reached. -/
structure AddSongOutcome where
  result : Except AddSongErr Song
  state : PgState
  createAttempted : Bool
deriving DecidableEq, Repr

/-- `songService.AddSong`. The external client's response is passed in
as `apiResult` (`Except.error` models a failed call, wrapped into
`ErrExternalAPI`); the Go standard library's
`time.Parse("02.01.2006", s)` is passed in as the oracle `parseDate`.
Validation rejects enrichment text longer than `maxTextLength` and
release-date strings longer than `maxReleaseDateLength` before any
storage write; an unparsable non-empty release date degrades to the
invalid null string without failing the call; empty enrichment strings
are stored with the validity flag false. -/
def AddSong (parseDate : GoStr → Option Date) (req : AddSongRequest)
    (apiResult : Except Unit SongDetailFromAPI) (st : PgState) : AddSongOutcome :=
  match apiResult with
  | .error _ => ⟨.error .externalAPI, st, false⟩
  | .ok songDetails =>
    if songDetails.text.length > maxTextLength then
      ⟨.error .textTooLong, st, false⟩
    else if songDetails.releaseDate.length > maxReleaseDateLength then
      ⟨.error .releaseDateTooLong, st, false⟩
    else
      let nullReleaseDate : NullString :=
        if songDetails.releaseDate ≠ [] then
          match parseDate songDetails.releaseDate with
          | none => ⟨[], false⟩
          | some parsedTime => ⟨formatYYYYMMDD parsedTime, true⟩
        else ⟨[], false⟩
      let nullText : NullString := ⟨songDetails.text, decide (songDetails.text ≠ [])⟩
      let nullLink : NullString := ⟨songDetails.link, decide (songDetails.link ≠ [])⟩
      let newSong : Song :=
        { id := 0
          groupName := req.groupName
          songName := req.songName
          releaseDate := nullReleaseDate
          text := nullText
          link := nullLink
          createdAt := 0
          updatedAt := 0 }
      let created := pgCreate st newSong
      ⟨.ok created.1, created.2, true⟩

/-- The status code chosen by `AddSongHandler` for a service result:
201 on success; 503 exactly when `errors.Is(err, ErrExternalAPI)`;
500 for every other failure. -/
def addSongHandlerStatus (res : Except AddSongErr Song) : Nat :=
  match res with
  | .ok _ => 201
  | .error e => if e = .externalAPI then 503 else 500

/-- `musicapi.MusicAPIClient`: the configured base URL and the mock-mode
flag derived from it. -/
structure MusicAPIClient where
  baseURL : GoStr
  useMockData : Bool
deriving DecidableEq, Repr

/-- `musicapi.NewMusicAPIClient`: mock mode is on exactly when the
configured base URL is empty. -/
def NewMusicAPIClient (baseURL : GoStr) : MusicAPIClient :=
  ⟨baseURL, decide (baseURL = [])⟩

/-- The deterministic placeholder enrichment values produced in mock
mode, with the `fmt.Sprintf` interpolation of song and group. -/
def mockSongDetails (group song : GoStr) : SongDetailFromAPI :=
  { releaseDate := "2023-10-27".data
    text := "Mock Text: This is a sample verse for \x27".data ++ song
      ++ "\x27 by \x27".data ++ group
      ++ "\x27.\n\n(Data from Mock MusicAPIClient)".data
    link := "https://www.youtube.com/watch?v=mockExample".data }

/-- `MusicAPIClient.GetSongDetailsFromAPI`, up to the network: in mock
mode it returns the placeholder details without any network call
(`some` of a successful result); outside mock mode the call performs
network requests, which the embedding leaves unmodelled (`none`). -/
def GetSongDetailsFromAPI (api : MusicAPIClient) (group song : GoStr) :
    Option (Except Unit SongDetailFromAPI) :=
  if api.useMockData then
    some (.ok (mockSongDetails group song))
  else
    none

/-- C1: for a song with stored text present and a pagination with
page ≥ 1 and pageSize ≥ 1 whose start index `(page-1)*pageSize` lies
within the verse sequence, `GetSongText` returns the song with text
equal to the verses from `start` to `min (start+pageSize) count`,
rejoined with the blank-line separator, the verses being the split of
the stored text on that separator. -/
theorem C1_getSongText_window (song : Song) (p : Pagination)
    (hv : song.text.valid = true) (_hp : 1 ≤ p.page) (_hs : 1 ≤ p.pageSize)
    (hin : p.GetOffset < ((splitSep song.text.string).length : Int)) :
    GetSongTextPure song p =
      { song with text :=
          ⟨joinSep (goSlice (splitSep song.text.string) p.GetOffset
              (min (p.GetOffset + p.GetLimit) ((splitSep song.text.string).length : Int))),
            true⟩ } := by
  simp only [GetSongTextPure, hv, if_true]
  rw [if_neg (by omega)]
  have hmin :
      (if p.GetOffset + p.GetLimit > ((splitSep song.text.string).length : Int)
        then ((splitSep song.text.string).length : Int)
        else p.GetOffset + p.GetLimit) =
      min (p.GetOffset + p.GetLimit) ((splitSep song.text.string).length : Int) := by
    split <;> omega
  rw [hmin]

/-- C1 witness: on the three-verse text with page 2 and pageSize 1 the
window is exactly the second verse. -/
theorem C1_getSongText_window_witness :
    GetSongTextPure
      { id := 1, groupName := "Muse".data, songName := "Uprising".data,
        releaseDate := ⟨[], false⟩, text := ⟨"A\n\nB\n\nC".data, true⟩,
        link := ⟨[], false⟩, createdAt := 0, updatedAt := 0 } ⟨2, 1⟩ =
      { id := 1, groupName := "Muse".data, songName := "Uprising".data,
        releaseDate := ⟨[], false⟩, text := ⟨"B".data, true⟩,
        link := ⟨[], false⟩, createdAt := 0, updatedAt := 0 } := by
  have h := C1_getSongText_window
    { id := 1, groupName := "Muse".data, songName := "Uprising".data,
      releaseDate := ⟨[], false⟩, text := ⟨"A\n\nB\n\nC".data, true⟩,
      link := ⟨[], false⟩, createdAt := 0, updatedAt := 0 } ⟨2, 1⟩
    (by decide) (by decide) (by decide) (by decide)
  rw [h]
  decide

/-- C2: for a song with stored text present whose start index is at or
past the end of the verse sequence, the returned text is empty; when
the start index is strictly past the verse count the text is moreover
cleared to the invalid (absent) null string. -/
theorem C2_getSongText_beyond (song : Song) (p : Pagination)
    (hv : song.text.valid = true)
    (hbeyond : ((splitSep song.text.string).length : Int) ≤ p.GetOffset) :
    (GetSongTextPure song p).text.string = [] ∧
    (((splitSep song.text.string).length : Int) < p.GetOffset →
      (GetSongTextPure song p).text = ⟨[], false⟩) := by
  simp only [GetSongTextPure, hv, if_true]
  by_cases hgt : p.GetOffset > ((splitSep song.text.string).length : Int)
  · rw [if_pos hgt]
    exact ⟨rfl, fun _ => rfl⟩
  · rw [if_neg hgt]
    have heq : p.GetOffset = ((splitSep song.text.string).length : Int) := by omega
    have hslice : ∀ e : Int, goSlice (splitSep song.text.string) p.GetOffset e = [] := by
      intro e
      unfold goSlice
      rw [heq]
      simp
    constructor
    · simp [hslice, joinSep_nil]
    · intro hlt
      omega

/-- C2 witness: a text of three verses with page 10 and pageSize 1 has
start index 9, past the last verse, and the text comes back absent. -/
theorem C2_getSongText_beyond_witness :
    (GetSongTextPure
      { id := 2, groupName := "G".data, songName := "S".data,
        releaseDate := ⟨[], false⟩, text := ⟨"A\n\nB\n\nC".data, true⟩,
        link := ⟨[], false⟩, createdAt := 0, updatedAt := 0 } ⟨10, 1⟩).text.string = [] ∧
    (GetSongTextPure
      { id := 2, groupName := "G".data, songName := "S".data,
        releaseDate := ⟨[], false⟩, text := ⟨"A\n\nB\n\nC".data, true⟩,
        link := ⟨[], false⟩, createdAt := 0, updatedAt := 0 } ⟨10, 1⟩).text = ⟨[], false⟩ := by
  have h := C2_getSongText_beyond
    { id := 2, groupName := "G".data, songName := "S".data,
      releaseDate := ⟨[], false⟩, text := ⟨"A\n\nB\n\nC".data, true⟩,
      link := ⟨[], false⟩, createdAt := 0, updatedAt := 0 } ⟨10, 1⟩
    (by decide) (by decide)
  exact ⟨h.1, h.2 (by decide)⟩

/-- C3: for a song with stored text present, page 1 with a pageSize at
least the verse count returns the song completely unchanged: the window
covers the whole verse sequence and splitting on the blank-line
separator followed by rejoining is the identity. -/
theorem C3_getSongText_full (song : Song) (p : Pagination)
    (hv : song.text.valid = true) (hpage : p.page = 1)
    (hsize : ((splitSep song.text.string).length : Int) ≤ p.pageSize) :
    GetSongTextPure song p = song := by
  have hoff : p.GetOffset = 0 := by
    simp [Pagination.GetOffset, hpage]
  have hlim : p.GetLimit = p.pageSize := rfl
  simp only [GetSongTextPure, hv, if_true, hoff, hlim]
  rw [if_neg (by omega)]
  have he2 :
      (if 0 + p.pageSize > ((splitSep song.text.string).length : Int)
        then ((splitSep song.text.string).length : Int)
        else 0 + p.pageSize) = ((splitSep song.text.string).length : Int) := by
    split <;> omega
  rw [he2]
  have hslice : goSlice (splitSep song.text.string) 0 ((splitSep song.text.string).length : Int) =
      splitSep song.text.string := by
    unfold goSlice
    simp
  rw [hslice, joinSep_splitSep]
  obtain ⟨i, g, n, r, t, li, c, u⟩ := song
  obtain ⟨ts, tv⟩ := t
  simp only at hv
  subst hv
  rfl

/-- C3 witness: page 1 with pageSize 10 on a three-verse text returns
the song unchanged. -/
theorem C3_getSongText_full_witness :
    GetSongTextPure
      { id := 3, groupName := "G".data, songName := "S".data,
        releaseDate := ⟨"1999-01-01".data, true⟩, text := ⟨"A\n\nB\n\nC".data, true⟩,
        link := ⟨"x".data, true⟩, createdAt := 4, updatedAt := 5 } ⟨1, 10⟩ =
      { id := 3, groupName := "G".data, songName := "S".data,
        releaseDate := ⟨"1999-01-01".data, true⟩, text := ⟨"A\n\nB\n\nC".data, true⟩,
        link := ⟨"x".data, true⟩, createdAt := 4, updatedAt := 5 } :=
  C3_getSongText_full
    { id := 3, groupName := "G".data, songName := "S".data,
      releaseDate := ⟨"1999-01-01".data, true⟩, text := ⟨"A\n\nB\n\nC".data, true⟩,
      link := ⟨"x".data, true⟩, createdAt := 4, updatedAt := 5 } ⟨1, 10⟩
    (by decide) (by decide) (by decide)

/-- C9: `GetSongText` never modifies any field other than the text:
id, group name, song name, release date, link, and both timestamps are
returned exactly as stored, and a song whose text is absent is returned
entirely unchanged. -/
theorem C9_getSongText_frame (song : Song) (p : Pagination) :
    (GetSongTextPure song p).id = song.id ∧
    (GetSongTextPure song p).groupName = song.groupName ∧
    (GetSongTextPure song p).songName = song.songName ∧
    (GetSongTextPure song p).releaseDate = song.releaseDate ∧
    (GetSongTextPure song p).link = song.link ∧
    (GetSongTextPure song p).createdAt = song.createdAt ∧
    (GetSongTextPure song p).updatedAt = song.updatedAt ∧
    (song.text.valid = false → GetSongTextPure song p = song) := by
  unfold GetSongTextPure
  by_cases hv : song.text.valid
  · simp only [hv, if_true]
    split <;> simp [hv]
  · simp [hv]

/-- C9 witness: a song with absent text passes through unchanged, all
fields intact. -/
theorem C9_getSongText_frame_witness :
    GetSongTextPure
      { id := 9, groupName := "G".data, songName := "S".data,
        releaseDate := ⟨"2000-05-05".data, true⟩, text := ⟨[], false⟩,
        link := ⟨"u".data, true⟩, createdAt := 7, updatedAt := 8 } ⟨3, 2⟩ =
      { id := 9, groupName := "G".data, songName := "S".data,
        releaseDate := ⟨"2000-05-05".data, true⟩, text := ⟨[], false⟩,
        link := ⟨"u".data, true⟩, createdAt := 7, updatedAt := 8 } :=
  (C9_getSongText_frame
    { id := 9, groupName := "G".data, songName := "S".data,
      releaseDate := ⟨"2000-05-05".data, true⟩, text := ⟨[], false⟩,
      link := ⟨"u".data, true⟩, createdAt := 7, updatedAt := 8 } ⟨3, 2⟩).2.2.2.2.2.2.2 rfl

/-- The release date of the song returned by a successful `AddSong`
outcome, `none` when the call failed. -/
def addedReleaseDate (o : AddSongOutcome) : Option NullString :=
  match o.result with
  | .ok s => some s.releaseDate
  | .error _ => none

/-- C4: when enrichment succeeds but the lyrics text exceeds 65535
characters or the release-date string exceeds 255 characters, `AddSong`
fails with the corresponding length-validation error, `storage.Create`
is never reached, and the store is unchanged. -/
theorem C4_addSong_length_validation (parseDate : GoStr → Option Date)
    (req : AddSongRequest) (d : SongDetailFromAPI) (st : PgState)
    (hlen : d.text.length > maxTextLength ∨ d.releaseDate.length > maxReleaseDateLength) :
    (AddSong parseDate req (.ok d) st).state = st ∧
    (AddSong parseDate req (.ok d) st).createAttempted = false ∧
    ((AddSong parseDate req (.ok d) st).result = .error .textTooLong ∨
     (AddSong parseDate req (.ok d) st).result = .error .releaseDateTooLong) := by
  unfold AddSong
  by_cases h1 : d.text.length > maxTextLength
  · simp [h1]
  · have h2 : d.releaseDate.length > maxReleaseDateLength := hlen.resolve_left h1
    simp [h1, h2]

/-- C4 witness: an enrichment text of 65536 characters is rejected
before any write. -/
theorem C4_addSong_length_validation_witness :
    (AddSong (fun _ => none) ⟨[], []⟩ (.ok ⟨[], List.replicate 65536 'a', []⟩)
        ⟨[], 1, 0⟩).state = ⟨[], 1, 0⟩ ∧
    (AddSong (fun _ => none) ⟨[], []⟩ (.ok ⟨[], List.replicate 65536 'a', []⟩)
        ⟨[], 1, 0⟩).createAttempted = false ∧
    ((AddSong (fun _ => none) ⟨[], []⟩ (.ok ⟨[], List.replicate 65536 'a', []⟩)
        ⟨[], 1, 0⟩).result = .error .textTooLong ∨
     (AddSong (fun _ => none) ⟨[], []⟩ (.ok ⟨[], List.replicate 65536 'a', []⟩)
        ⟨[], 1, 0⟩).result = .error .releaseDateTooLong) :=
  C4_addSong_length_validation (fun _ => none) ⟨[], []⟩ ⟨[], List.replicate 65536 'a', []⟩
    ⟨[], 1, 0⟩ (Or.inl (by simp only [List.length_replicate, maxTextLength]; omega))

/-- C5: when enrichment succeeds, the lengths pass validation, and the
release-date string is non-empty, `AddSong` stores the date converted
from `02.01.2006` layout to `2006-01-02` layout when parsing succeeds;
when parsing fails the song is still created and persisted, with the
release date absent, and the call does not fail. -/
theorem C5_addSong_releaseDate (parseDate : GoStr → Option Date)
    (req : AddSongRequest) (d : SongDetailFromAPI) (st : PgState)
    (h1 : ¬ d.text.length > maxTextLength)
    (h2 : ¬ d.releaseDate.length > maxReleaseDateLength)
    (hne : d.releaseDate ≠ []) :
    (∀ t, parseDate d.releaseDate = some t →
      addedReleaseDate (AddSong parseDate req (.ok d) st) = some ⟨formatYYYYMMDD t, true⟩ ∧
      (AddSong parseDate req (.ok d) st).state.songs.length = st.songs.length + 1) ∧
    (parseDate d.releaseDate = none →
      addedReleaseDate (AddSong parseDate req (.ok d) st) = some ⟨[], false⟩ ∧
      (AddSong parseDate req (.ok d) st).state.songs.length = st.songs.length + 1) := by
  unfold AddSong
  simp only [if_neg h1, if_neg h2, if_pos hne]
  constructor
  · intro t ht
    rw [ht]
    simp [addedReleaseDate, pgCreate]
  · intro ht
    rw [ht]
    simp [addedReleaseDate, pgCreate]

/-- C5 witness: a parsable date `27.10.2023` is stored as `2023-10-27`
and the song is persisted. -/
theorem C5_addSong_releaseDate_witness :
    addedReleaseDate (AddSong (fun _ => some ⟨2023, 10, 27⟩) ⟨"Muse".data, "Uprising".data⟩
        (.ok ⟨"27.10.2023".data, "T".data, []⟩) ⟨[], 1, 0⟩) =
      some ⟨formatYYYYMMDD ⟨2023, 10, 27⟩, true⟩ ∧
    (AddSong (fun _ => some ⟨2023, 10, 27⟩) ⟨"Muse".data, "Uprising".data⟩
        (.ok ⟨"27.10.2023".data, "T".data, []⟩) ⟨[], 1, 0⟩).state.songs.length = 1 :=
  (C5_addSong_releaseDate (fun _ => some ⟨2023, 10, 27⟩) ⟨"Muse".data, "Uprising".data⟩
    ⟨"27.10.2023".data, "T".data, []⟩ ⟨[], 1, 0⟩
    (by decide) (by decide) (by decide)).1 ⟨2023, 10, 27⟩ rfl

/-- C6: a failed external metadata call makes `AddSong` return the
distinguished external-dependency error with no storage write, and the
handler maps exactly that error kind to status 503, every other failure
kind to 500, and success to 201. -/
theorem C6_addSong_externalAPI (parseDate : GoStr → Option Date)
    (req : AddSongRequest) (st : PgState) :
    (AddSong parseDate req (.error ()) st).result = .error .externalAPI ∧
    (AddSong parseDate req (.error ()) st).state = st ∧
    (AddSong parseDate req (.error ()) st).createAttempted = false ∧
    (∀ e : AddSongErr, addSongHandlerStatus (.error e) = if e = .externalAPI then 503 else 500) ∧
    (∀ s : Song, addSongHandlerStatus (.ok s) = 201) :=
  ⟨rfl, rfl, rfl, fun _ => rfl, fun _ => rfl⟩

/-- C7: every by-id operation on an id with no matching row returns the
distinguished not-found error: a read finds no row, a delete affects
zero rows, an update returns no row. -/
theorem C7_byId_notFound (store : List Song) (id : Int) (now : Int)
    (h : findSong store id = none) :
    pgGetByID store id = .error .songNotFound ∧
    pgDelete store id = .error .songNotFound ∧
    (∀ song : Song, song.id = id → pgUpdate store song now = .error .songNotFound) := by
  have hall : ∀ s ∈ store, s.id ≠ id := by
    intro s hs
    have h' := h
    unfold findSong at h'
    have := List.find?_eq_none.mp h' s hs
    simpa using this
  refine ⟨?_, ?_, ?_⟩
  · unfold pgGetByID
    rw [h]
  · unfold pgDelete
    have hfil : store.filter (fun s => decide (s.id ≠ id)) = store := by
      apply List.filter_eq_self.mpr
      intro a ha
      simpa using hall a ha
    simp [hfil]
    exact hall
  · intro song hid
    unfold pgUpdate
    rw [hid, h]

/-- C7 witness: on an empty store, get, delete and update of id 1 all
return the not-found error. -/
theorem C7_byId_notFound_witness :
    pgGetByID [] 1 = .error .songNotFound ∧
    pgDelete [] 1 = .error .songNotFound ∧
    pgUpdate []
      { id := 1, groupName := [], songName := [], releaseDate := ⟨[], false⟩,
        text := ⟨[], false⟩, link := ⟨[], false⟩, createdAt := 0, updatedAt := 0 } 0 =
      .error .songNotFound := by
  have h := C7_byId_notFound [] 1 0 rfl
  exact ⟨h.1, h.2.1, h.2.2 _ rfl⟩

/-- C8: with no configured endpoint (empty base URL) the external
metadata client operates in mock mode: it returns successfully, with
the deterministic placeholder enrichment values, and performs no
network call. -/
theorem C8_mock_mode (group song : GoStr) :
    GetSongDetailsFromAPI (NewMusicAPIClient []) group song =
      some (.ok (mockSongDetails group song)) := rfl

/-- C10: on every successful `AddSong`, the persisted text and link are
present exactly when the corresponding enrichment strings are
non-empty (their stored value being that string), and an empty
release-date string is stored as an absent field. -/
theorem C10_addSong_presence (parseDate : GoStr → Option Date)
    (req : AddSongRequest) (d : SongDetailFromAPI) (st : PgState)
    (h1 : ¬ d.text.length > maxTextLength)
    (h2 : ¬ d.releaseDate.length > maxReleaseDateLength) :
    (AddSong parseDate req (.ok d) st).result.toOption.map Song.text =
      some ⟨d.text, decide (d.text ≠ [])⟩ ∧
    (AddSong parseDate req (.ok d) st).result.toOption.map Song.link =
      some ⟨d.link, decide (d.link ≠ [])⟩ ∧
    (d.releaseDate = [] →
      (AddSong parseDate req (.ok d) st).result.toOption.map Song.releaseDate =
        some ⟨[], false⟩) := by
  refine ⟨?_, ?_, ?_⟩
  · simp [AddSong, pgCreate, h1, h2, Except.toOption]
  · simp [AddSong, pgCreate, h1, h2, Except.toOption]
  · intro hempty
    simp [AddSong, pgCreate, h1, h2, hempty, Except.toOption]

/-- C10 witness: empty enrichment link and release date are stored
absent while the non-empty text is stored present. -/
theorem C10_addSong_presence_witness :
    (AddSong (fun _ => none) ⟨"G".data, "S".data⟩ (.ok ⟨[], "T".data, []⟩)
        ⟨[], 1, 0⟩).result.toOption.map Song.text = some ⟨"T".data, true⟩ ∧
    (AddSong (fun _ => none) ⟨"G".data, "S".data⟩ (.ok ⟨[], "T".data, []⟩)
        ⟨[], 1, 0⟩).result.toOption.map Song.link = some ⟨[], false⟩ ∧
    (AddSong (fun _ => none) ⟨"G".data, "S".data⟩ (.ok ⟨[], "T".data, []⟩)
        ⟨[], 1, 0⟩).result.toOption.map Song.releaseDate = some ⟨[], false⟩ := by
  have h := C10_addSong_presence (fun _ => none) ⟨"G".data, "S".data⟩ ⟨[], "T".data, []⟩
    ⟨[], 1, 0⟩ (by decide) (by decide)
  refine ⟨?_, ?_, h.2.2 rfl⟩
  · simpa using h.1
  · simpa using h.2.1
